/-
Verification of the `ct_server` supervisory process
(trillian/ctfe/ct_server/main.go) against its design specification.

The program is shallowly embedded: `runMain` mirrors `main` statement by
statement as a function from the command-line flags and an environment of
external-call results to the ordered trace of observable events together
with the process exit status.  Fallible external calls (config load, etcd
client creation, gRPC dial, per-log instance setup, announcement and
retraction updates) are supplied as `Except`/function fields of `Env`; a
field the Go code never reads (a discarded error return) is likewise never
read by the embedding.  `defer`red cleanup is modelled explicitly: deferred
event blocks are accumulated and replayed in LIFO order when `main`
returns, and skipped entirely on every `os.Exit` path (`glog.Exitf`, the
signal handler's `os.Exit(1)`).
-/
import Mathlib

/-- One entry of the log configuration, as used by `main`
(`configpb.LogConfig`): the numeric log identity and the URL path
prefix.  `pfx` embeds the Go field `Prefix`. -/
structure LogConfig where
  logId : Int
  pfx : String
deriving DecidableEq, Repr

/-- The global flags of `ct_server` (`http_endpoint`, `metrics_endpoint`,
`log_rpc_server`, `rpc_deadline`, `get_sth_interval`, `etcd_servers`,
`etcd_http_service`, `etcd_metrics_service`).  Durations are in whole
units (the embedding never needs sub-unit resolution). -/
structure Flags where
  httpEndpoint : String
  metricsEndpoint : String
  rpcBackend : String
  rpcDeadline : Nat
  getSTHInterval : Nat
  etcdServers : String
  etcdHTTPService : String
  etcdMetricsService : String

/-- Termination signals `awaitSignal` subscribes to (`signal.Notify(sigs,
syscall.SIGINT, syscall.SIGTERM)`). -/
inductive Signal where
  | sigint
  | sigterm
deriving DecidableEq, Repr

/-- Results of the external calls `main` performs, in program order.
`announceHTTPRes`, `announceMetricsRes`, `retractHTTPRes` and
`retractMetricsRes` are the error returns of the four `etcdRes.Update`
calls; the Go code discards all four, so `runMain` never reads them.
`signalWhileServing = some s` means signal `s` arrives while the process
is serving; `none` means the main listener terminates on its own, with
`listenErr` the error `ListenAndServe` returned. -/
structure Env where
  logConfig : Except String (List LogConfig)
  etcdNew : Except String Unit
  announceHTTPRes : Except String Unit
  announceMetricsRes : Except String Unit
  dialRes : Except String Unit
  setUp : LogConfig → Except String (List String)
  retractHTTPRes : Except String Unit
  retractMetricsRes : Except String Unit
  signalWhileServing : Option Signal
  listenErr : String

/-- Observable events of a run, in order of occurrence. -/
inductive Event where
  | info (msg : String)
  | warning (msg : String)
  | etcdConnect
  | announce (service addr : String)
  | retract (service addr : String)
  | dial (target : String)
  | connClose
  | handle (path : String)
  | metricsListen (addr : String)
  | refreshTask (logId : Int)
  | fetch (logId : Int)
  | listen (addr : String)
  | flush
deriving DecidableEq, Repr

/-- `metricsAt`: the metrics endpoint, defaulting to the HTTP endpoint
when the flag is empty (main.go lines 73-76). -/
def metricsAddr (fl : Flags) : String :=
  if fl.metricsEndpoint = "" then fl.httpEndpoint else fl.metricsEndpoint

/-- The two startup announcements of the dynamic variant (main.go lines
92-98): an info log and an `Update{Op: Add}` for the HTTP service, then
the same for the metrics service.  The error returns of the two `Update`
calls are discarded by the Go code and therefore do not appear here. -/
def announceEvents (fl : Flags) : List Event :=
  [Event.info "Announcing our presence (http)",
   Event.announce fl.etcdHTTPService fl.httpEndpoint,
   Event.info "Announcing our presence (metrics)",
   Event.announce fl.etcdMetricsService (metricsAddr fl)]

/-- The deferred retraction block of the dynamic variant (main.go lines
100-107): info logs and `Update{Op: Delete}` for both services.  The
error returns of the two `Update` calls are discarded by the Go code. -/
def retractDeferEvents (fl : Flags) : List Event :=
  [Event.info "Removing our presence (http)",
   Event.retract fl.etcdHTTPService fl.httpEndpoint,
   Event.info "Removing our presence (metrics)",
   Event.retract fl.etcdMetricsService (metricsAddr fl)]

/-- The instance-registration loop (main.go lines 122-130): for each
config in order, call `ctfe.SetUpInstance`; on error, `glog.Exitf`
aborts the loop at that point; on success, record the returned path set
and continue.  Returns the path sets installed so far (one per
successfully set-up config, in order) and the first error if any. -/
def registerLoop (setUp : LogConfig → Except String (List String)) :
    List LogConfig → List (List String) × Option String
  | [] => ([], none)
  | c :: rest =>
    match setUp c with
    | .error e => ([], some e)
    | .ok paths =>
      let r := registerLoop setUp rest
      (paths :: r.1, r.2)

/-- The `http.Handle(path, handler)` calls made by the registration loop:
one per path of each installed set, in order. -/
def handleEvents (sets : List (List String)) : List Event :=
  sets.flatten.map Event.handle

/-- Metrics wiring (main.go lines 131-143): when the metrics address
differs from the HTTP endpoint, a separate metrics listener goroutine is
started; otherwise `/metrics` is handled on the default mux. -/
def metricsEvents (fl : Flags) : List Event :=
  if metricsAddr fl ≠ fl.httpEndpoint then
    [Event.metricsListen (metricsAddr fl)]
  else
    [Event.handle "/metrics"]

/-- A head-refresh task as created by main.go lines 145-160: the config
it is bound to, and the period of the `time.NewTicker` driving it. -/
structure RefreshTask where
  config : LogConfig
  interval : Nat
deriving DecidableEq, Repr

/-- Task creation of main.go lines 145-160: when `get_sth_interval > 0`,
one ticker plus goroutine per configured log, in configuration order;
when the interval is 0, none at all. -/
def refreshTasks (getSTHInterval : Nat) (cfg : List LogConfig) :
    List RefreshTask :=
  if 0 < getSTHInterval then
    cfg.map (fun c => { config := c, interval := getSTHInterval })
  else []

/-- Semantics of Go's `time.NewTicker d`: the n-th tick (0-indexed)
fires at time `d * (n + 1)` after the ticker's creation — the first tick
only after one full period, never immediately. -/
def tickerFireTime (d n : Nat) : Nat := d * (n + 1)

/-- One iteration of a refresh goroutine's `for t := range ticker.C`
body (main.go lines 152-157): fetch the tree head; when the fetch
fails, log a warning; either way the loop just continues. -/
def refreshTick (c : LogConfig) (fetchRes : Except String Unit) :
    List Event :=
  Event.fetch c.logId ::
    match fetchRes with
    | .ok _ => []
    | .error e =>
      [Event.warning ("failed to retrieve tree head for log " ++ c.pfx
        ++ ": " ++ e)]

/-- A refresh goroutine processing a finite run of ticks whose fetch
results are `ticks`, in schedule order. -/
def refreshLoop (c : LogConfig) (ticks : List (Except String Unit)) :
    List Event :=
  (ticks.map (refreshTick c)).flatten

/-- main.go from the gRPC dial (line 113) to process exit: dial failure
is `glog.Exitf` (exit 1, defers skipped); then `defer conn.Close()` is
pushed; then the registration loop (failure: `glog.Exitf`); then metrics
wiring, refresh-task creation, `go awaitSignal(func() os.Exit(1))` and
`ListenAndServe`.  A signal while serving runs `awaitSignal`'s warning
and flush and then `os.Exit(1)` — no deferred block runs.  When instead
the listener returns, main logs, flushes and returns, so the deferred
blocks run in LIFO order and the process exits 0. -/
def servePhase (fl : Flags) (env : Env) (cfg : List LogConfig)
    (tr : List Event) (defers : List (List Event)) : List Event × Nat :=
  match env.dialRes with
  | .error _ => (tr ++ [Event.warning "Could not connect to rpc server"], 1)
  | .ok _ =>
    let tr2 := tr ++ [Event.dial fl.rpcBackend]
    let defers2 := [Event.connClose] :: defers
    let rl := registerLoop env.setUp cfg
    match rl.2 with
    | some _ =>
      (tr2 ++ handleEvents rl.1
          ++ [Event.warning "Failed to set up log instance"], 1)
    | none =>
      let tr3 := tr2 ++ handleEvents rl.1 ++ metricsEvents fl
          ++ (refreshTasks fl.getSTHInterval cfg).map
              (fun t => Event.refreshTask t.config.logId)
          ++ [Event.listen fl.httpEndpoint]
      match env.signalWhileServing with
      | some _ =>
        (tr3 ++ [Event.warning "Signal received", Event.flush], 1)
      | none =>
        (tr3 ++ [Event.warning ("Server exited: " ++ env.listenErr),
                 Event.flush]
             ++ defers2.flatten, 0)

/-- The whole of `main`: config load (failure: `glog.Exitf`, exit 1);
then, when `etcd_servers` is non-empty, etcd client creation (failure:
exit 1), the two announcements, and the deferred retraction block;
otherwise the fixed backend resolver with no directory interaction; then
`servePhase`.  Returns the event trace and the process exit status. -/
def runMain (fl : Flags) (env : Env) : List Event × Nat :=
  match env.logConfig with
  | .error _ => ([Event.warning "Failed to read log config"], 1)
  | .ok cfg =>
    if 0 < fl.etcdServers.length then
      match env.etcdNew with
      | .error _ =>
        ([Event.info "CT HTTP Server Starting",
          Event.warning "Failed to connect to etcd"], 1)
      | .ok _ =>
        servePhase fl env cfg
          ([Event.info "CT HTTP Server Starting", Event.etcdConnect]
            ++ announceEvents fl)
          [retractDeferEvents fl]
    else
      servePhase fl env cfg [Event.info "CT HTTP Server Starting"] []

/-- Modelled from the spec: `util.FixedBackendResolver` (referenced at
main.go line 110) is part of this repository but its source is not
among the provided files.  Per the spec's static variant, resolution
"always returns the exact configured address list", the "fixed,
comma-separated address list from configuration"; the dial target it
resolves is the `log_rpc_server` flag value. -/
def fixedBackendResolve (target : String) : List String :=
  target.splitOn ","

/-- Recognizer for announcement events. -/
def isAnnounce : Event → Bool
  | .announce _ _ => true
  | _ => false

/-- Recognizer for retraction events. -/
def isRetract : Event → Bool
  | .retract _ _ => true
  | _ => false

/-- Recognizer for `http.Handle` events. -/
def isHandle : Event → Bool
  | .handle _ => true
  | _ => false

/-- Recognizer for refresh-task creation events. -/
def isRefreshTaskEv : Event → Bool
  | .refreshTask _ => true
  | _ => false

/-- Recognizer for the main-listener start event. -/
def isListen : Event → Bool
  | .listen _ => true
  | _ => false

/-- Recognizer for the metrics-listener start event. -/
def isMetricsListen : Event → Bool
  | .metricsListen _ => true
  | _ => false

/-- Recognizer for the backend-connection close event. -/
def isConnClose : Event → Bool
  | .connClose => true
  | _ => false

/-- Recognizer for any interaction with the etcd directory: client
creation, announcement, or retraction. -/
def isDirectoryOp : Event → Bool
  | .etcdConnect => true
  | .announce _ _ => true
  | .retract _ _ => true
  | _ => false

/-- The messages a trace writes to the log (payloads of `info` and
`warning` events), in order. -/
def loggedStrings : List Event → List String
  | [] => []
  | .info m :: rest => m :: loggedStrings rest
  | .warning m :: rest => m :: loggedStrings rest
  | _ :: rest => loggedStrings rest

/-- The events from `ListenAndServe`'s return (or the signal handler)
to process exit, given the deferred blocks pending at that point: a
signal runs `awaitSignal`'s warning and flush and then `os.Exit(1)`,
skipping every deferred block; a listener exit logs, flushes and lets
`main` return, so `conn.Close()` and the earlier deferred blocks run in
LIFO order. -/
def serveTail (env : Env) (defers : List (List Event)) : List Event :=
  match env.signalWhileServing with
  | some _ => [Event.warning "Signal received", Event.flush]
  | none =>
    [Event.warning ("Server exited: " ++ env.listenErr), Event.flush]
      ++ ([Event.connClose] :: defers).flatten

/-- Startup succeeded: the config loaded, etcd client creation succeeded
when the dynamic variant is selected, the gRPC dial succeeded, and every
instance was set up without error. -/
def startupOk (fl : Flags) (env : Env) : Prop :=
  ∃ cfg, env.logConfig = .ok cfg ∧
    (0 < fl.etcdServers.length → env.etcdNew = .ok ()) ∧
    env.dialRes = .ok () ∧
    (registerLoop env.setUp cfg).2 = none

/-- Two concrete log configurations, for witnesses. -/
def exCfg : List LogConfig := [⟨42, "/log-a/"⟩, ⟨43, "/log-b/"⟩]

/-- A concrete instance-setup function that succeeds on every config. -/
def exSetUp : LogConfig → Except String (List String) :=
  fun c => .ok [c.pfx ++ "ct/v1/add-chain", c.pfx ++ "ct/v1/get-sth"]

/-- A concrete instance-setup function that fails on the second
configured log (log id 43). -/
def exSetUpFail : LogConfig → Except String (List String) :=
  fun c =>
    if c.logId = 43 then .error "failed to load private key"
    else .ok [c.pfx ++ "ct/v1/get-sth"]

/-- Concrete flag values selecting the dynamic (etcd-backed) variant. -/
def exFlags : Flags :=
  { httpEndpoint := "localhost:6962", metricsEndpoint := "localhost:6963",
    rpcBackend := "localhost:8090", rpcDeadline := 10,
    getSTHInterval := 180, etcdServers := "etcd1:2379",
    etcdHTTPService := "trillian-ctfe-http",
    etcdMetricsService := "trillian-ctfe-metrics-http" }

/-- Concrete flag values selecting the static variant (`etcd_servers`
empty, `log_rpc_server` a comma-separated list). -/
def exFlagsStatic : Flags :=
  { httpEndpoint := "localhost:6962", metricsEndpoint := "localhost:6963",
    rpcBackend := "h1:8090,h2:8090", rpcDeadline := 10,
    getSTHInterval := 180, etcdServers := "",
    etcdHTTPService := "trillian-ctfe-http",
    etcdMetricsService := "trillian-ctfe-metrics-http" }

/-- A run where every external call succeeds and the main listener
terminates on its own while no signal arrives. -/
def exEnvOk : Env :=
  { logConfig := .ok exCfg, etcdNew := .ok (),
    announceHTTPRes := .ok (), announceMetricsRes := .ok (),
    dialRes := .ok (), setUp := exSetUp,
    retractHTTPRes := .ok (), retractMetricsRes := .ok (),
    signalWhileServing := none,
    listenErr := "accept tcp: use of closed network connection" }

/-- A run where every external call succeeds and SIGTERM arrives while
the process is serving. -/
def exEnvSignal : Env :=
  { exEnvOk with signalWhileServing := some .sigterm }

/-- A run where both retraction updates at shutdown fail. -/
def exEnvRetractFail : Env :=
  { exEnvOk with
    retractHTTPRes := .error "etcdserver: request timed out",
    retractMetricsRes := .error "etcdserver: request timed out" }

/-- A run where both startup announcements fail. -/
def exEnvAnnounceFail : Env :=
  { exEnvOk with
    announceHTTPRes := .error "etcdserver: request timed out",
    announceMetricsRes := .error "etcdserver: request timed out" }

/-- A run where instance setup fails for the second configured log. -/
def exEnvSetupFail : Env :=
  { exEnvOk with setUp := exSetUpFail }

theorem servePhase_exit_zero (fl : Flags) (env : Env) (cfg : List LogConfig)
    (tr : List Event) (defers : List (List Event)) :
    (servePhase fl env cfg tr defers).2 = 0 ↔
      env.dialRes = .ok () ∧ (registerLoop env.setUp cfg).2 = none ∧
      env.signalWhileServing = none := by
  unfold servePhase
  rcases hd : env.dialRes with e | u
  · simp [hd]
  · rcases hr : (registerLoop env.setUp cfg).2 with _ | e
    · rcases hs : env.signalWhileServing with _ | s
      · simp [hd, hr, hs]
      · simp [hd, hr, hs]
    · simp [hd, hr]

theorem exit_zero_iff (fl : Flags) (env : Env) :
    (runMain fl env).2 = 0 ↔
      startupOk fl env ∧ env.signalWhileServing = none := by
  unfold runMain
  rcases hc : env.logConfig with e | cfg
  · simp [hc, startupOk]
  · by_cases hl : 0 < fl.etcdServers.length
    · rcases he : env.etcdNew with e | u
      · simp [hc, hl, he, startupOk]
      · simp [hc, hl, he, servePhase_exit_zero, startupOk, and_assoc]
    · simp [hc, hl, servePhase_exit_zero, startupOk, and_assoc]

theorem registerLoop_isSome_iff (setUp : LogConfig → Except String (List String))
    (cfg : List LogConfig) :
    (registerLoop setUp cfg).2.isSome ↔ ∃ c ∈ cfg, ∃ e, setUp c = .error e := by
  induction cfg with
  | nil => simp [registerLoop]
  | cons c rest ih =>
    unfold registerLoop
    rcases h : setUp c with e | paths
    · simp [h]
    · simp [h, ih]

theorem registerLoop_none_length (setUp : LogConfig → Except String (List String))
    (cfg : List LogConfig) (h : (registerLoop setUp cfg).2 = none) :
    (registerLoop setUp cfg).1.length = cfg.length := by
  induction cfg with
  | nil => simp [registerLoop]
  | cons c rest ih =>
    unfold registerLoop at h ⊢
    rcases hc : setUp c with e | paths
    · rw [hc] at h; simp at h
    · rw [hc] at h
      simp at h ⊢
      exact ih h

theorem exit_code_cases (fl : Flags) (env : Env) :
    (runMain fl env).2 = 0 ∨ (runMain fl env).2 = 1 := by
  unfold runMain servePhase
  rcases hc : env.logConfig with e | cfg
  · simp
  · by_cases hl : 0 < fl.etcdServers.length
    · rcases he : env.etcdNew with e | u
      · simp [hl]
      · simp only [hl, if_true]
        rcases hd : env.dialRes with e | u
        · simp
        · rcases hr : (registerLoop env.setUp cfg).2 with _ | e
          · rcases hs : env.signalWhileServing with _ | s <;> simp
          · simp
    · simp only [hl, if_false]
      rcases hd : env.dialRes with e | u
      · simp
      · rcases hr : (registerLoop env.setUp cfg).2 with _ | e
        · rcases hs : env.signalWhileServing with _ | s <;> simp
        · simp

theorem servePhase_trace (fl : Flags) (env : Env) (cfg : List LogConfig)
    (tr : List Event) (defers : List (List Event))
    (hd : env.dialRes = .ok ())
    (hr : (registerLoop env.setUp cfg).2 = none) :
    (servePhase fl env cfg tr defers).1 =
      tr ++ [Event.dial fl.rpcBackend]
         ++ handleEvents (registerLoop env.setUp cfg).1
         ++ metricsEvents fl
         ++ (refreshTasks fl.getSTHInterval cfg).map
             (fun t => Event.refreshTask t.config.logId)
         ++ [Event.listen fl.httpEndpoint]
         ++ serveTail env defers := by
  unfold servePhase serveTail
  rw [hd]
  simp only [hr]
  rcases hs : env.signalWhileServing with _ | s <;> simp [List.append_assoc]

theorem runMain_dynamic_trace (fl : Flags) (env : Env) (cfg : List LogConfig)
    (hc : env.logConfig = .ok cfg) (hl : 0 < fl.etcdServers.length)
    (he : env.etcdNew = .ok ()) (hd : env.dialRes = .ok ())
    (hr : (registerLoop env.setUp cfg).2 = none) :
    (runMain fl env).1 =
      [Event.info "CT HTTP Server Starting", Event.etcdConnect]
        ++ announceEvents fl
        ++ [Event.dial fl.rpcBackend]
        ++ handleEvents (registerLoop env.setUp cfg).1
        ++ metricsEvents fl
        ++ (refreshTasks fl.getSTHInterval cfg).map
            (fun t => Event.refreshTask t.config.logId)
        ++ [Event.listen fl.httpEndpoint]
        ++ serveTail env [retractDeferEvents fl] := by
  unfold runMain
  rw [hc]
  simp only [hl, if_true]
  rw [he, servePhase_trace fl env cfg _ _ hd hr]

theorem runMain_static_trace (fl : Flags) (env : Env) (cfg : List LogConfig)
    (hc : env.logConfig = .ok cfg) (hl : ¬ 0 < fl.etcdServers.length)
    (hd : env.dialRes = .ok ())
    (hr : (registerLoop env.setUp cfg).2 = none) :
    (runMain fl env).1 =
      [Event.info "CT HTTP Server Starting"]
        ++ [Event.dial fl.rpcBackend]
        ++ handleEvents (registerLoop env.setUp cfg).1
        ++ metricsEvents fl
        ++ (refreshTasks fl.getSTHInterval cfg).map
            (fun t => Event.refreshTask t.config.logId)
        ++ [Event.listen fl.httpEndpoint]
        ++ serveTail env [] := by
  unfold runMain
  rw [hc]
  simp only [hl, if_false]
  rw [servePhase_trace fl env cfg _ _ hd hr]

theorem filter_map_eq_nil {α : Type} (f : α → Event) (p : Event → Bool)
    (l : List α) (h : ∀ a, p (f a) = false) : (l.map f).filter p = [] := by
  apply List.filter_eq_nil_iff.mpr
  intro a ha
  rcases List.mem_map.mp ha with ⟨x, _, rfl⟩
  simp [h]

theorem filter_handleEvents (p : Event → Bool) (sets : List (List String))
    (h : ∀ s, p (Event.handle s) = false) :
    (handleEvents sets).filter p = [] := by
  unfold handleEvents
  exact filter_map_eq_nil _ _ _ h

theorem filter_metricsEvents (p : Event → Bool) (fl : Flags)
    (h1 : ∀ a, p (Event.metricsListen a) = false)
    (h2 : ∀ s, p (Event.handle s) = false) :
    (metricsEvents fl).filter p = [] := by
  unfold metricsEvents
  split <;> simp [h1, h2]

theorem runMain_dynamic_serve (fl : Flags) (env : Env) (cfg : List LogConfig)
    (hc : env.logConfig = .ok cfg) (hl : 0 < fl.etcdServers.length)
    (he : env.etcdNew = .ok ()) :
    runMain fl env =
      servePhase fl env cfg
        ([Event.info "CT HTTP Server Starting", Event.etcdConnect]
          ++ announceEvents fl)
        [retractDeferEvents fl] := by
  unfold runMain
  rw [hc]
  simp only [hl, if_true]
  rw [he]

theorem runMain_static_serve (fl : Flags) (env : Env) (cfg : List LogConfig)
    (hc : env.logConfig = .ok cfg) (hl : ¬ 0 < fl.etcdServers.length) :
    runMain fl env =
      servePhase fl env cfg [Event.info "CT HTTP Server Starting"] [] := by
  unfold runMain
  rw [hc]
  simp only [hl, if_false]

theorem servePhase_fail_trace (fl : Flags) (env : Env) (cfg : List LogConfig)
    (tr : List Event) (defers : List (List Event))
    (hd : env.dialRes = .ok ()) (err : String)
    (herr : (registerLoop env.setUp cfg).2 = some err) :
    servePhase fl env cfg tr defers =
      (tr ++ [Event.dial fl.rpcBackend]
          ++ handleEvents (registerLoop env.setUp cfg).1
          ++ [Event.warning "Failed to set up log instance"], 1) := by
  unfold servePhase
  rw [hd]
  simp only [herr]

theorem refreshLoop_count (c : LogConfig) (ticks : List (Except String Unit)) :
    (refreshLoop c ticks).count (Event.fetch c.logId) = ticks.length := by
  induction ticks with
  | nil => rfl
  | cons r rest ih =>
    unfold refreshLoop at ih ⊢
    rcases r with err | u <;>
      simp [refreshTick, List.count_cons, List.count_append, ih]

theorem filter_flatten_eq_nil (p : Event → Bool) (L : List (List Event))
    (h : ∀ l ∈ L, l.filter p = []) : L.flatten.filter p = [] := by
  induction L with
  | nil => rfl
  | cons l rest ih =>
    simp only [List.flatten_cons, List.filter_append]
    rw [h l (by simp), ih (fun l2 hl2 => h l2 (by simp [hl2]))]
    rfl

theorem filter_retractDefer (p : Event → Bool) (fl : Flags)
    (hi : ∀ m, p (Event.info m) = false)
    (hre : ∀ s a, p (Event.retract s a) = false) :
    (retractDeferEvents fl).filter p = [] := by
  simp [retractDeferEvents, hi, hre]

theorem filter_serveTail (p : Event → Bool) (env : Env)
    (defers : List (List Event))
    (hw : ∀ m, p (Event.warning m) = false)
    (hf : p Event.flush = false)
    (hcc : p Event.connClose = false)
    (hdef : ∀ l ∈ defers, l.filter p = []) :
    (serveTail env defers).filter p = [] := by
  unfold serveTail
  rcases env.signalWhileServing with _ | s
  · simp only [List.flatten_cons, List.filter_append, List.filter_cons]
    rw [filter_flatten_eq_nil p defers hdef]
    simp [hw, hf, hcc]
  · simp [hw, hf]

/-- Claim C1, counterexample: a run where every startup step succeeds
and SIGTERM arrives while serving exits with status 1, not 0 — the
signal handler is `func() { os.Exit(1) }`. -/
theorem claim_C1_counterexample :
    exEnvSignal.signalWhileServing = some Signal.sigterm ∧
    startupOk exFlags exEnvSignal ∧
    (runMain exFlags exEnvSignal).2 = 1 := by
  refine ⟨rfl, ⟨exCfg, rfl, fun _ => rfl, rfl, by decide⟩, by decide⟩

/-- Claim C1, amended: the process exits 0 exactly when startup
succeeded and no termination signal arrived — that is, when the main
listener terminated on its own; a termination signal while serving
exits 1 (via the signal handler's `os.Exit(1)`), and every fatal
startup failure exits 1.  The exit status is always 0 or 1. -/
theorem claim_C1_exit_status (fl : Flags) (env : Env) :
    ((runMain fl env).2 = 0 ↔
      startupOk fl env ∧ env.signalWhileServing = none) ∧
    ((runMain fl env).2 = 0 ∨ (runMain fl env).2 = 1) :=
  ⟨exit_zero_iff fl env, exit_code_cases fl env⟩

/-- Claim C1, witness: the amended theorem applied to a concrete run
whose listener exits on its own yields exit status 0. -/
theorem claim_C1_witness :
    (runMain exFlags exEnvOk).2 = 0 :=
  (claim_C1_exit_status exFlags exEnvOk).1.mpr
    ⟨⟨exCfg, rfl, fun _ => rfl, rfl, by decide⟩, rfl⟩

/-- Claim C2, counterexample: in a dynamic-variant run that receives
SIGTERM while serving, the trace contains no retraction and no
connection close at all — `os.Exit(1)` skips every deferred block — so
"retract before close before exit" fails at this input. -/
theorem claim_C2_counterexample :
    0 < exFlags.etcdServers.length ∧
    exEnvSignal.signalWhileServing = some Signal.sigterm ∧
    (runMain exFlags exEnvSignal).1.filter isRetract = [] ∧
    (runMain exFlags exEnvSignal).1.filter isConnClose = [] ∧
    (runMain exFlags exEnvSignal).2 = 1 := by
  refine ⟨by decide, rfl, by decide, by decide, by decide⟩

/-- Claim C2, amended: in every dynamic-variant run that reaches
SERVING and then receives a termination signal, the process exits with
status 1 performing neither the retraction nor the backend-connection
close — the signal handler calls `os.Exit(1)`, which skips both
deferred blocks. -/
theorem claim_C2_signal_skips_cleanup (fl : Flags) (env : Env)
    (cfg : List LogConfig) (s : Signal)
    (hc : env.logConfig = .ok cfg) (hl : 0 < fl.etcdServers.length)
    (he : env.etcdNew = .ok ()) (hd : env.dialRes = .ok ())
    (hr : (registerLoop env.setUp cfg).2 = none)
    (hs : env.signalWhileServing = some s) :
    (runMain fl env).1.filter isRetract = [] ∧
    (runMain fl env).1.filter isConnClose = [] ∧
    (runMain fl env).2 = 1 := by
  have htr := runMain_dynamic_trace fl env cfg hc hl he hd hr
  refine ⟨?_, ?_, ?_⟩
  · rw [htr]
    simp only [List.filter_append]
    rw [filter_handleEvents _ _ (fun p => rfl),
        filter_map_eq_nil _ _ _ (fun t => rfl),
        filter_metricsEvents _ _ (fun a => rfl) (fun p => rfl)]
    simp [announceEvents, serveTail, hs, isRetract]
  · rw [htr]
    simp only [List.filter_append]
    rw [filter_handleEvents _ _ (fun p => rfl),
        filter_map_eq_nil _ _ _ (fun t => rfl),
        filter_metricsEvents _ _ (fun a => rfl) (fun p => rfl)]
    simp [announceEvents, serveTail, hs, isConnClose]
  · rcases exit_code_cases fl env with h | h
    · exfalso
      rcases (exit_zero_iff fl env).mp h with ⟨_, hnone⟩
      rw [hs] at hnone
      cases hnone
    · exact h

/-- Claim C2, witness: the amended theorem at a concrete dynamic run
with SIGTERM while serving. -/
theorem claim_C2_witness :
    (runMain exFlags exEnvSignal).1.filter isRetract = [] ∧
    (runMain exFlags exEnvSignal).1.filter isConnClose = [] ∧
    (runMain exFlags exEnvSignal).2 = 1 :=
  claim_C2_signal_skips_cleanup exFlags exEnvSignal exCfg .sigterm
    rfl (by decide) rfl rfl (by decide) rfl

/-- Claim C3, counterexample: in a concrete dynamic-variant run, the
announcement of the HTTP address occurs strictly before the listener
start in the trace — announcements happen at resolver setup (main.go
lines 92-98), long before `ListenAndServe` (line 167). -/
theorem claim_C3_counterexample :
    Event.announce "trillian-ctfe-http" "localhost:6962"
        ∈ (runMain exFlags exEnvOk).1 ∧
    Event.listen "localhost:6962" ∈ (runMain exFlags exEnvOk).1 ∧
    (runMain exFlags exEnvOk).1.indexOf
        (Event.announce "trillian-ctfe-http" "localhost:6962")
      < (runMain exFlags exEnvOk).1.indexOf
        (Event.listen "localhost:6962") := by
  refine ⟨by decide, by decide, by decide⟩

/-- Claim C3, amended: in every dynamic-variant run that reaches
SERVING, both announce operations happen BEFORE the HTTP listener is
started (the reverse of the claimed order): the trace splits into a
prefix holding both announcements and a suffix that holds the listener
start and no announcement. -/
theorem claim_C3_announce_before_listener (fl : Flags) (env : Env)
    (cfg : List LogConfig)
    (hc : env.logConfig = .ok cfg) (hl : 0 < fl.etcdServers.length)
    (he : env.etcdNew = .ok ()) (hd : env.dialRes = .ok ())
    (hr : (registerLoop env.setUp cfg).2 = none) :
    ∃ pre post,
      (runMain fl env).1 = pre ++ post ∧
      Event.announce fl.etcdHTTPService fl.httpEndpoint ∈ pre ∧
      Event.announce fl.etcdMetricsService (metricsAddr fl) ∈ pre ∧
      Event.listen fl.httpEndpoint ∈ post ∧
      post.filter isAnnounce = [] := by
  refine ⟨[Event.info "CT HTTP Server Starting", Event.etcdConnect]
            ++ announceEvents fl,
          [Event.dial fl.rpcBackend]
            ++ handleEvents (registerLoop env.setUp cfg).1
            ++ metricsEvents fl
            ++ (refreshTasks fl.getSTHInterval cfg).map
                (fun t => Event.refreshTask t.config.logId)
            ++ [Event.listen fl.httpEndpoint]
            ++ serveTail env [retractDeferEvents fl],
          ?_, ?_, ?_, ?_, ?_⟩
  · rw [runMain_dynamic_trace fl env cfg hc hl he hd hr]
    simp [List.append_assoc]
  · simp [announceEvents]
  · simp [announceEvents]
  · simp
  · simp only [List.filter_append]
    rw [filter_handleEvents _ _ (fun p => rfl),
        filter_map_eq_nil _ _ _ (fun t => rfl),
        filter_metricsEvents _ _ (fun a => rfl) (fun p => rfl)]
    rcases hs : env.signalWhileServing with _ | s <;>
      simp [serveTail, hs, retractDeferEvents, isAnnounce]

/-- Claim C3, witness: the amended theorem at a concrete dynamic run. -/
theorem claim_C3_witness :
    ∃ pre post,
      (runMain exFlags exEnvOk).1 = pre ++ post ∧
      Event.announce exFlags.etcdHTTPService exFlags.httpEndpoint ∈ pre ∧
      Event.announce exFlags.etcdMetricsService (metricsAddr exFlags) ∈ pre ∧
      Event.listen exFlags.httpEndpoint ∈ post ∧
      post.filter isAnnounce = [] :=
  claim_C3_announce_before_listener exFlags exEnvOk exCfg
    rfl (by decide) rfl rfl (by decide)

/-- Claim C4: for every configured log, a zero `get_sth_interval`
creates no refresh task at all; a positive interval creates exactly one
task per configured log (the tasks' configs, in order, are exactly the
configuration list), each driven by a ticker of that interval whose
first tick fires no sooner than one full interval after creation and
which thereafter fires once per interval. -/
theorem claim_C4_refresh_tasks (interval : Nat) (cfg : List LogConfig) :
    (interval = 0 → refreshTasks interval cfg = []) ∧
    (0 < interval →
      (refreshTasks interval cfg).map RefreshTask.config = cfg ∧
      ∀ t ∈ refreshTasks interval cfg,
        t.interval = interval ∧
        interval ≤ tickerFireTime t.interval 0 ∧
        ∀ n, tickerFireTime t.interval (n + 1) =
          tickerFireTime t.interval n + interval) := by
  constructor
  · intro h
    simp [refreshTasks, h]
  · intro h
    refine ⟨?_, ?_⟩
    · unfold refreshTasks
      rw [if_pos h, List.map_map]
      simp [Function.comp_def]
    · intro t ht
      unfold refreshTasks at ht
      rw [if_pos h] at ht
      rcases List.mem_map.mp ht with ⟨cc, _, rfl⟩
      refine ⟨rfl, ?_, ?_⟩
      · simp [tickerFireTime]
      · intro n
        simp [tickerFireTime]
        ring

/-- Claim C4, witness: the theorem at interval 0 and at the concrete
interval 180 over two configured logs. -/
theorem claim_C4_witness :
    refreshTasks 0 exCfg = [] ∧
    (refreshTasks 180 exCfg).map RefreshTask.config = exCfg ∧
    ∀ t ∈ refreshTasks 180 exCfg,
      t.interval = 180 ∧
      180 ≤ tickerFireTime t.interval 0 ∧
      ∀ n, tickerFireTime t.interval (n + 1) =
        tickerFireTime t.interval n + 180 :=
  ⟨(claim_C4_refresh_tasks 0 exCfg).1 rfl,
   ((claim_C4_refresh_tasks 180 exCfg).2 (by decide)).1,
   ((claim_C4_refresh_tasks 180 exCfg).2 (by decide)).2⟩

/-- Claim C5: a refresh goroutine performs exactly one head-state fetch
per tick (never an out-of-band retry), a failing fetch is logged as a
warning carrying the log's prefix and the error, the loop's output over
any schedule splits tick-by-tick (so a failure never stops later
ticks), and a refresh task only ever emits fetch and warning events —
it never exits the process. -/
theorem claim_C5_refresh_failure_nonfatal (c : LogConfig)
    (ticks ticks2 : List (Except String Unit)) :
    refreshLoop c (ticks ++ ticks2) =
      refreshLoop c ticks ++ refreshLoop c ticks2 ∧
    (refreshLoop c ticks).count (Event.fetch c.logId) = ticks.length ∧
    (∀ e ∈ refreshLoop c ticks,
      e = Event.fetch c.logId ∨ ∃ m, e = Event.warning m) ∧
    (∀ err : String,
      Event.warning ("failed to retrieve tree head for log " ++ c.pfx
        ++ ": " ++ err) ∈ refreshTick c (.error err)) := by
  refine ⟨?_, refreshLoop_count c ticks, ?_, ?_⟩
  · unfold refreshLoop
    simp [List.map_append]
  · intro e he
    unfold refreshLoop at he
    rcases List.mem_flatten.mp he with ⟨l, hl, hel⟩
    rcases List.mem_map.mp hl with ⟨r, _, rfl⟩
    rcases r with err | u
    · simp [refreshTick] at hel
      rcases hel with rfl | rfl
      · exact .inl rfl
      · exact .inr ⟨_, rfl⟩
    · simp [refreshTick] at hel
      subst hel
      exact .inl rfl
  · intro err
    simp [refreshTick]

/-- Claim C5, witness: the theorem at a concrete log over a schedule
containing a failing tick. -/
theorem claim_C5_witness :
    refreshLoop ⟨42, "/log-a/"⟩
        ([Except.ok ()] ++ [Except.error "rpc: unavailable", Except.ok ()]) =
      refreshLoop ⟨42, "/log-a/"⟩ [Except.ok ()]
        ++ refreshLoop ⟨42, "/log-a/"⟩
            [Except.error "rpc: unavailable", Except.ok ()] ∧
    (refreshLoop ⟨42, "/log-a/"⟩ [Except.ok ()]).count (Event.fetch 42) = 1 ∧
    (∀ e ∈ refreshLoop ⟨42, "/log-a/"⟩ [Except.ok ()],
      e = Event.fetch 42 ∨ ∃ m, e = Event.warning m) ∧
    Event.warning ("failed to retrieve tree head for log " ++ "/log-a/"
        ++ ": " ++ "rpc: unavailable")
      ∈ refreshTick ⟨42, "/log-a/"⟩ (.error "rpc: unavailable") := by
  have h := claim_C5_refresh_failure_nonfatal ⟨42, "/log-a/"⟩
    [Except.ok ()] [Except.error "rpc: unavailable", Except.ok ()]
  exact ⟨h.1, h.2.1, h.2.2.1, h.2.2.2 "rpc: unavailable"⟩

/-- Claim C6: when instance setup fails for any configured log (and
startup reached the registration loop), the process exits with status 1
and the trace contains neither a main-listener start nor a
metrics-listener start — no partially-configured server ever serves. -/
theorem claim_C6_setup_failure_fatal (fl : Flags) (env : Env)
    (cfg : List LogConfig)
    (hc : env.logConfig = .ok cfg)
    (he : 0 < fl.etcdServers.length → env.etcdNew = .ok ())
    (hd : env.dialRes = .ok ())
    (hf : ∃ c ∈ cfg, ∃ e, env.setUp c = .error e) :
    (runMain fl env).2 = 1 ∧
    (runMain fl env).1.filter isListen = [] ∧
    (runMain fl env).1.filter isMetricsListen = [] := by
  have hr : (registerLoop env.setUp cfg).2.isSome :=
    (registerLoop_isSome_iff _ _).mpr hf
  rcases Option.isSome_iff_exists.mp hr with ⟨err, herr⟩
  by_cases hl : 0 < fl.etcdServers.length
  · rw [runMain_dynamic_serve fl env cfg hc hl (he hl),
        servePhase_fail_trace fl env cfg _ _ hd err herr]
    refine ⟨rfl, ?_, ?_⟩ <;>
    · simp only [List.filter_append]
      rw [filter_handleEvents _ _ (fun p => rfl)]
      simp [announceEvents, isListen, isMetricsListen]
  · rw [runMain_static_serve fl env cfg hc hl,
        servePhase_fail_trace fl env cfg _ _ hd err herr]
    refine ⟨rfl, ?_, ?_⟩ <;>
    · simp only [List.filter_append]
      rw [filter_handleEvents _ _ (fun p => rfl)]
      simp [isListen, isMetricsListen]

/-- Claim C6, witness: the theorem at a concrete run whose setup
function fails on the second configured log. -/
theorem claim_C6_witness :
    (runMain exFlags exEnvSetupFail).2 = 1 ∧
    (runMain exFlags exEnvSetupFail).1.filter isListen = [] ∧
    (runMain exFlags exEnvSetupFail).1.filter isMetricsListen = [] :=
  claim_C6_setup_failure_fatal exFlags exEnvSetupFail exCfg rfl
    (fun _ => rfl) rfl
    ⟨⟨43, "/log-b/"⟩, by decide, "failed to load private key", rfl⟩

/-- Claim C7: when `etcd_servers` is empty the static resolver variant
is used: resolution yields exactly the fixed, comma-separated
`log_rpc_server` address list, and no run — whatever the environment —
ever touches the directory: the trace contains no etcd client creation,
no announce, and no retract. -/
theorem claim_C7_static_variant (fl : Flags)
    (hstatic : fl.etcdServers = "") :
    fixedBackendResolve fl.rpcBackend = fl.rpcBackend.splitOn "," ∧
    ∀ env : Env, (runMain fl env).1.filter isDirectoryOp = [] := by
  have hl : ¬ 0 < fl.etcdServers.length := by
    rw [hstatic]
    decide
  refine ⟨rfl, ?_⟩
  intro env
  rcases hc : env.logConfig with e | cfg
  · unfold runMain
    rw [hc]
    simp [isDirectoryOp]
  · rw [runMain_static_serve fl env cfg hc hl]
    rcases hd : env.dialRes with e | u
    · unfold servePhase
      rw [hd]
      simp [isDirectoryOp]
    · rcases hro : (registerLoop env.setUp cfg).2 with _ | err
      · rw [servePhase_trace fl env cfg _ _ hd hro]
        simp only [List.filter_append]
        rw [filter_handleEvents _ _ (fun p => rfl),
            filter_map_eq_nil _ _ _ (fun t => rfl),
            filter_metricsEvents _ _ (fun a => rfl) (fun p => rfl),
            filter_serveTail _ _ _ (fun m => rfl) rfl rfl (by simp)]
        simp [isDirectoryOp]
      · rw [servePhase_fail_trace fl env cfg _ _ hd err hro]
        simp only [List.filter_append]
        rw [filter_handleEvents _ _ (fun p => rfl)]
        simp [isDirectoryOp]

/-- Claim C7, witness: the theorem at concrete static-variant flags,
with the directory-freedom conjunct instantiated at a concrete run. -/
theorem claim_C7_witness :
    fixedBackendResolve exFlagsStatic.rpcBackend =
      exFlagsStatic.rpcBackend.splitOn "," ∧
    (runMain exFlagsStatic exEnvOk).1.filter isDirectoryOp = [] :=
  ⟨(claim_C7_static_variant exFlagsStatic rfl).1,
   (claim_C7_static_variant exFlagsStatic rfl).2 exEnvOk⟩

/-- Claim C8, counterexample: a run whose two retraction updates both
fail is indistinguishable from the run where they succeed — the failure
is not logged (the error string appears in no logged message), the
retractions are still the only retract events, and the exit status is
still 0.  The Go code discards the error returns of both deferred
`Update` calls, so "failure is logged" is false. -/
theorem claim_C8_counterexample :
    runMain exFlags exEnvRetractFail = runMain exFlags exEnvOk ∧
    ((runMain exFlags exEnvRetractFail).1.filter isRetract).length = 2 ∧
    "etcdserver: request timed out"
      ∉ loggedStrings (runMain exFlags exEnvRetractFail).1 ∧
    (runMain exFlags exEnvRetractFail).2 = 0 :=
  ⟨rfl, by decide, by decide, by decide⟩

/-- Claim C8, amended: a failure of the retraction updates at shutdown
is silently discarded — the run is identical whatever the two updates
return, so the failure is neither logged nor fatal and cannot block or
fail the shutdown sequence; a clean listener exit still ends with
status 0, and on that path both retractions are still attempted (only
the attempt is info-logged). -/
theorem claim_C8_retract_errors_discarded (fl : Flags) (env : Env)
    (x y : Except String Unit) :
    runMain fl { env with retractHTTPRes := x, retractMetricsRes := y } =
      runMain fl env ∧
    (startupOk fl env → env.signalWhileServing = none →
      (runMain fl env).2 = 0) ∧
    (∀ cfg, env.logConfig = .ok cfg → 0 < fl.etcdServers.length →
      env.etcdNew = .ok () → env.dialRes = .ok () →
      (registerLoop env.setUp cfg).2 = none →
      env.signalWhileServing = none →
      Event.retract fl.etcdHTTPService fl.httpEndpoint
          ∈ (runMain fl env).1 ∧
      Event.retract fl.etcdMetricsService (metricsAddr fl)
          ∈ (runMain fl env).1) := by
  refine ⟨rfl, fun hok hs => (exit_zero_iff fl env).mpr ⟨hok, hs⟩, ?_⟩
  intro cfg hc hl he hd hr hs
  rw [runMain_dynamic_trace fl env cfg hc hl he hd hr]
  constructor <;> simp [serveTail, hs, retractDeferEvents]

/-- Claim C8, witness: the amended theorem at a concrete run whose
retraction updates fail. -/
theorem claim_C8_witness :
    runMain exFlags exEnvRetractFail = runMain exFlags exEnvOk ∧
    (runMain exFlags exEnvOk).2 = 0 ∧
    Event.retract exFlags.etcdHTTPService exFlags.httpEndpoint
        ∈ (runMain exFlags exEnvOk).1 := by
  have h := claim_C8_retract_errors_discarded exFlags exEnvOk
    (.error "etcdserver: request timed out")
    (.error "etcdserver: request timed out")
  exact ⟨h.1, h.2.1 ⟨exCfg, rfl, fun _ => rfl, rfl, by decide⟩ rfl,
         (h.2.2 exCfg rfl (by decide) rfl rfl (by decide) rfl).1⟩

/-- Claim C9: when startup succeeds, registration installs exactly one
path set per configured log (N sets for N logs), and the trace splits
into a prefix holding every `http.Handle` installation and a suffix
holding the listener start and every refresh-task creation — so
registration of all instances completes before any refresh task or
listener starts. -/
theorem claim_C9_registration_before_serving (fl : Flags) (env : Env)
    (cfg : List LogConfig)
    (hc : env.logConfig = .ok cfg)
    (he : 0 < fl.etcdServers.length → env.etcdNew = .ok ())
    (hd : env.dialRes = .ok ())
    (hr : (registerLoop env.setUp cfg).2 = none) :
    (registerLoop env.setUp cfg).1.length = cfg.length ∧
    ∃ pre post,
      (runMain fl env).1 = pre ++ post ∧
      (∀ p ∈ (registerLoop env.setUp cfg).1.flatten,
        Event.handle p ∈ pre) ∧
      post.filter isHandle = [] ∧
      pre.filter isRefreshTaskEv = [] ∧
      pre.filter isListen = [] ∧
      Event.listen fl.httpEndpoint ∈ post ∧
      (∀ t ∈ refreshTasks fl.getSTHInterval cfg,
        Event.refreshTask t.config.logId ∈ post) := by
  refine ⟨registerLoop_none_length env.setUp cfg hr, ?_⟩
  by_cases hl : 0 < fl.etcdServers.length
  · refine ⟨[Event.info "CT HTTP Server Starting", Event.etcdConnect]
        ++ announceEvents fl
        ++ [Event.dial fl.rpcBackend]
        ++ handleEvents (registerLoop env.setUp cfg).1
        ++ metricsEvents fl,
      (refreshTasks fl.getSTHInterval cfg).map
          (fun t => Event.refreshTask t.config.logId)
        ++ [Event.listen fl.httpEndpoint]
        ++ serveTail env [retractDeferEvents fl],
      ?_, ?_, ?_, ?_, ?_, ?_, ?_⟩
    · rw [runMain_dynamic_trace fl env cfg hc hl (he hl) hd hr]
      simp [List.append_assoc]
    · intro p hp
      have hm : Event.handle p ∈ handleEvents (registerLoop env.setUp cfg).1 :=
        List.mem_map.mpr ⟨p, hp, rfl⟩
      simp [hm]
    · simp only [List.filter_append]
      rw [filter_map_eq_nil _ _ _ (fun t => rfl),
          filter_serveTail _ _ _ (fun m => rfl) rfl rfl
            (by
              intro l hll
              simp only [List.mem_singleton] at hll
              subst hll
              exact filter_retractDefer _ fl (fun m => rfl)
                (fun s a => rfl))]
      simp [isHandle]
    · simp only [List.filter_append]
      rw [filter_handleEvents _ _ (fun p => rfl),
          filter_metricsEvents _ _ (fun a => rfl) (fun p => rfl)]
      simp [announceEvents, isRefreshTaskEv]
    · simp only [List.filter_append]
      rw [filter_handleEvents _ _ (fun p => rfl),
          filter_metricsEvents _ _ (fun a => rfl) (fun p => rfl)]
      simp [announceEvents, isListen]
    · simp
    · intro t ht
      have hm : Event.refreshTask t.config.logId
          ∈ (refreshTasks fl.getSTHInterval cfg).map
              (fun t => Event.refreshTask t.config.logId) :=
        List.mem_map.mpr ⟨t, ht, rfl⟩
      simp [hm]
  · refine ⟨[Event.info "CT HTTP Server Starting"]
        ++ [Event.dial fl.rpcBackend]
        ++ handleEvents (registerLoop env.setUp cfg).1
        ++ metricsEvents fl,
      (refreshTasks fl.getSTHInterval cfg).map
          (fun t => Event.refreshTask t.config.logId)
        ++ [Event.listen fl.httpEndpoint]
        ++ serveTail env [],
      ?_, ?_, ?_, ?_, ?_, ?_, ?_⟩
    · rw [runMain_static_trace fl env cfg hc hl hd hr]
      simp [List.append_assoc]
    · intro p hp
      have hm : Event.handle p ∈ handleEvents (registerLoop env.setUp cfg).1 :=
        List.mem_map.mpr ⟨p, hp, rfl⟩
      simp [hm]
    · simp only [List.filter_append]
      rw [filter_map_eq_nil _ _ _ (fun t => rfl),
          filter_serveTail _ _ _ (fun m => rfl) rfl rfl (by simp)]
      simp [isHandle]
    · simp only [List.filter_append]
      rw [filter_handleEvents _ _ (fun p => rfl),
          filter_metricsEvents _ _ (fun a => rfl) (fun p => rfl)]
      simp [isRefreshTaskEv]
    · simp only [List.filter_append]
      rw [filter_handleEvents _ _ (fun p => rfl),
          filter_metricsEvents _ _ (fun a => rfl) (fun p => rfl)]
      simp [isListen]
    · simp
    · intro t ht
      have hm : Event.refreshTask t.config.logId
          ∈ (refreshTasks fl.getSTHInterval cfg).map
              (fun t => Event.refreshTask t.config.logId) :=
        List.mem_map.mpr ⟨t, ht, rfl⟩
      simp [hm]

/-- Claim C9, witness: the theorem at a concrete successful run with
two configured logs. -/
theorem claim_C9_witness :
    (registerLoop exEnvOk.setUp exCfg).1.length = exCfg.length ∧
    ∃ pre post,
      (runMain exFlags exEnvOk).1 = pre ++ post ∧
      (∀ p ∈ (registerLoop exEnvOk.setUp exCfg).1.flatten,
        Event.handle p ∈ pre) ∧
      post.filter isHandle = [] ∧
      pre.filter isRefreshTaskEv = [] ∧
      pre.filter isListen = [] ∧
      Event.listen exFlags.httpEndpoint ∈ post ∧
      (∀ t ∈ refreshTasks exFlags.getSTHInterval exCfg,
        Event.refreshTask t.config.logId ∈ post) :=
  claim_C9_registration_before_serving exFlags exEnvOk exCfg rfl
    (fun _ => rfl) rfl (by decide)

/-- Claim C10: the error returns of the two startup announce updates
are discarded — the run is identical whatever the two `Update` calls
return (so the errors are neither logged nor fatal), and whenever
startup succeeds the process still goes on to start the HTTP
listener. -/
theorem claim_C10_announce_errors_discarded (fl : Flags) (env : Env)
    (x y : Except String Unit) :
    runMain fl
        { env with announceHTTPRes := x, announceMetricsRes := y } =
      runMain fl env ∧
    (startupOk fl env →
      Event.listen fl.httpEndpoint ∈ (runMain fl env).1) := by
  refine ⟨rfl, ?_⟩
  rintro ⟨cfg, hc, he, hd, hr⟩
  by_cases hl : 0 < fl.etcdServers.length
  · rw [runMain_dynamic_trace fl env cfg hc hl (he hl) hd hr]
    simp
  · rw [runMain_static_trace fl env cfg hc hl hd hr]
    simp

/-- Claim C10, witness: the theorem at a concrete run whose two
announce updates fail; the run equals the all-successful run and still
starts the listener. -/
theorem claim_C10_witness :
    runMain exFlags exEnvAnnounceFail = runMain exFlags exEnvOk ∧
    Event.listen exFlags.httpEndpoint ∈ (runMain exFlags exEnvOk).1 := by
  have h := claim_C10_announce_errors_discarded exFlags exEnvOk
    (.error "etcdserver: request timed out")
    (.error "etcdserver: request timed out")
  exact ⟨h.1, h.2 ⟨exCfg, rfl, fun _ => rfl, rfl, by decide⟩⟩
